import Mathlib

/-!
Shallow embedding of the authentication core of the canvas-auth-utem
repository (`auth.py` and `config.py`).

Timestamps are modelled as integers (seconds).  The Streamlit session
state is modelled as an explicit `Session` record, the per-identity
rate-limiting dictionary `self.login_attempts` as a function from
optional identity strings (a login may be invoked with `email = None`,
which is a valid dictionary key in the source) to optional attempt
records, and the user database as an association list.
-/

namespace CanvasAuth

/-- One entry of `self.login_attempts`: `{'attempts', 'last_attempt', 'locked_until'}`. -/
structure AttemptRecord where
  attempts : Nat
  last_attempt : Int
  locked_until : Option Int
deriving DecidableEq, Repr

/-- The `self.login_attempts` dictionary, keyed by the email passed to
`login` (which can be `None` in the source, hence `Option String`). -/
def AttemptsMap : Type := Option String → Option AttemptRecord

/-- Dictionary update `self.login_attempts[email] = v`. -/
def updAttempts (m : AttemptsMap) (k : Option String) (v : AttemptRecord) : AttemptsMap :=
  fun k' => if k' = k then some v else m k'

/-- A user profile as stored in `users.json` / `self.users_db`.
Fields read with `.get(key)` in the source are `Option`-valued;
`permisos` is read with default `[]`. -/
structure UserProfile where
  nombre : Option String
  rol : Option String
  facultad : Option String
  departamento : Option String
  permisos : List String
  activo : Option Bool
deriving DecidableEq, Repr

/-- The Streamlit session-state fields managed by `AuthenticationSystem`. -/
structure Session where
  authenticated : Bool
  user : Option String
  user_data : Option UserProfile
  login_time : Option Int
  last_activity : Option Int
deriving DecidableEq, Repr

/-- The parts of `self.config` the embedded operations read. -/
structure Config where
  dominios_permitidos : List String
  timeout_sesion : Int
deriving DecidableEq, Repr

/-- Mutable state of an `AuthenticationSystem` instance (besides the session). -/
structure Sys where
  config : Config
  users_db : List (String × UserProfile)
  login_attempts : AttemptsMap

/-- `self.max_attempts = 5`. -/
def max_attempts : Nat := 5

/-- `self.lockout_duration = 300`. -/
def lockout_duration : Int := 300

/-- `AuthenticationSystem.check_rate_limit`: returns the updated
attempts dictionary together with the `(permitido, mensaje)` pair. -/
def check_rate_limit (m : AttemptsMap) (email : Option String) (now : Int) :
    AttemptsMap × Bool × String :=
  match m email with
  | some info =>
    match info.locked_until with
    | some lu =>
      if now < lu then
        (m, false,
          "Cuenta bloqueada. Intente nuevamente en " ++ toString (lu - now) ++ " segundos.")
      else
        (updAttempts m email ⟨0, now, none⟩, true, "OK")
    | none => (m, true, "OK")
  | none => (updAttempts m email ⟨0, now, none⟩, true, "OK")

/-- `AuthenticationSystem.record_login_attempt`. -/
def record_login_attempt (m : AttemptsMap) (email : Option String) (success : Bool)
    (now : Int) : AttemptsMap :=
  let info := (m email).getD ⟨0, now, none⟩
  if success then
    updAttempts m email ⟨0, now, none⟩
  else
    let a := info.attempts + 1
    updAttempts m email
      ⟨a, now, if a ≥ max_attempts then some (now + lockout_duration) else info.locked_until⟩

/-- Python's `str.endswith`, as a suffix test on the character sequences. -/
def str_ends_with (s suffix : String) : Bool :=
  suffix.data.isSuffixOf s.data

/-- `AuthenticationSystem.validate_domain`. -/
def validate_domain (cfg : Config) (email : String) : Bool :=
  cfg.dominios_permitidos.any (fun d => str_ends_with email d)

/-- Result of a call to `login`: updated system state, updated session
state, and the returned `(éxito, mensaje)` pair. -/
structure LoginResult where
  sys : Sys
  sess : Session
  ok : Bool
  msg : String

/-- Body of `AuthenticationSystem.login` (inside the `try`).  An
`Except.error` value models an uncaught Python exception, carrying the
state as mutated so far; the only fault source in the reachable body is
`validate_domain(None)` (an `AttributeError` on `None.endswith`). -/
def loginBody (sys : Sys) (sess : Session) (email : Option String) (now : Int) :
    Except (Sys × Session) LoginResult :=
  let c := check_rate_limit sys.login_attempts email now
  let sys1 : Sys := { sys with login_attempts := c.1 }
  if c.2.1 = false then
    .ok ⟨sys1, sess, false, c.2.2⟩
  else
    match email with
    | none => .error (sys1, sess)
    | some e =>
      if validate_domain sys1.config e = false then
        .ok ⟨{ sys1 with login_attempts := record_login_attempt sys1.login_attempts email false now },
              sess, false, "Dominio de email no autorizado. Use su cuenta @utem.cl"⟩
      else
        match sys1.users_db.lookup e with
        | none =>
          .ok ⟨{ sys1 with login_attempts := record_login_attempt sys1.login_attempts email false now },
                sess, false, "Usuario no registrado en el sistema. Contacte al administrador."⟩
        | some ud =>
          if ud.activo.getD false = false then
            .ok ⟨{ sys1 with login_attempts := record_login_attempt sys1.login_attempts email false now },
                  sess, false, "Usuario inactivo. Contacte al administrador."⟩
          else
            .ok ⟨{ sys1 with login_attempts := record_login_attempt sys1.login_attempts email true now },
                  ⟨true, some e, some ud, some now, some now⟩,
                  true, "Bienvenido " ++ ud.nombre.getD e⟩

/-- The generic message returned by the `except` clause of `login`. -/
def authProcessError : String := "Error en el proceso de autenticación"

/-- `AuthenticationSystem.login`: the `try/except` wrapper around `loginBody`. -/
def login (sys : Sys) (sess : Session) (email : Option String) (now : Int) : LoginResult :=
  match loginBody sys sess email now with
  | .ok r => r
  | .error (s, ss) => ⟨s, ss, false, authProcessError⟩

/-- `AuthenticationSystem.logout`: clears every session field. -/
def logout (_sess : Session) : Session :=
  ⟨false, none, none, none, none⟩

/-- `AuthenticationSystem.check_session_timeout`: returns the updated
session and the boolean result. -/
def check_session_timeout (cfg : Config) (sess : Session) (now : Int) : Session × Bool :=
  match sess.authenticated, sess.last_activity with
  | true, some la =>
    if now - la > cfg.timeout_sesion then
      (logout sess, false)
    else
      ({ sess with last_activity := some now }, true)
  | _, _ => (sess, true)

/-- `AuthenticationSystem.get_user_role`. -/
def get_user_role (sess : Session) : Option String :=
  match sess.authenticated, sess.user_data with
  | true, some ud => ud.rol
  | _, _ => none

/-- `AuthenticationSystem.get_user_permissions`. -/
def get_user_permissions (sess : Session) : List String :=
  match sess.authenticated, sess.user_data with
  | true, some ud => ud.permisos
  | _, _ => []

/-- `AuthenticationSystem.is_authorized`. -/
def is_authorized (sess : Session) (permission : String) : Bool :=
  if sess.authenticated = false then false
  else if get_user_role sess = some "admin" then true
  else (get_user_permissions sess).contains permission

/-- Python's `str.lower`, as a character-wise map. -/
def str_lower (s : String) : String := ⟨s.data.map Char.toLower⟩

/-- A dataframe row: a mapping from column name to cell value. -/
abbrev Row : Type := List (String × String)

/-- Cell access `row[col]`. -/
def cellOf (r : Row) (col : String) : String := (r.lookup col).getD ""

/-- A dataframe: its column list and its rows, in order. -/
structure DataFrame where
  columns : List String
  rows : List Row
deriving DecidableEq, Repr

/-- `AuthenticationSystem.filter_data_by_role`.  Returns `none` exactly
where the source returns `None` (unauthenticated), or where the source
would fault reading a field of a missing `user_data` (unreachable for a
well-formed session). -/
def filter_data_by_role (sess : Session) (data : DataFrame)
    (department_column : String) : Option DataFrame :=
  if sess.authenticated = false then none
  else if get_user_role sess = some "admin" then some data
  else
    match sess.user_data with
    | none => none
    | some ud =>
      if ud.facultad = some "todas" then some data
      else
        match ud.departamento with
        | none => some data
        | some dept =>
          if dept ≠ "" ∧ department_column ∈ data.columns then
            some { data with
                   rows := data.rows.filter
                     (fun r => str_lower (cellOf r department_column) = str_lower dept) }
          else some data

/-- `AuthenticationSystem.delete_user`: returns the updated database and
the `(éxito, mensaje)` pair. -/
def delete_user (db : List (String × UserProfile)) (email : String) :
    List (String × UserProfile) × Bool × String :=
  match db.lookup email with
  | none => (db, false, "Usuario no existe")
  | some _ =>
    if email = "admin@utem.cl" then
      (db, false, "No se puede eliminar al administrador principal")
    else
      (db.filter (fun p => p.1 ≠ email), true, "Usuario eliminado exitosamente")

/-- A role definition from `create_default_config` in `auth.py`. -/
structure RoleDef where
  nivel : Nat
  permisos_base : List String
  acceso_completo : Bool
deriving DecidableEq, Repr

/-- The `"roles"` table of `create_default_config` in `auth.py`. -/
def default_roles : List (String × RoleDef) :=
  [("admin", ⟨100, ["lectura", "escritura", "exportacion", "admin", "gestion", "reportes"], true⟩),
   ("decano", ⟨80, ["lectura", "exportacion", "reportes", "gestion"], false⟩),
   ("director_informatica", ⟨70, ["lectura", "exportacion", "reportes"], false⟩),
   ("director_ciencias", ⟨70, ["lectura", "exportacion", "reportes"], false⟩),
   ("profesor", ⟨30, ["lectura"], false⟩)]

/-- Base permissions of a role name under the default policy table. -/
def role_base_permissions (r : Option String) : List String :=
  match r with
  | some name => ((default_roles.lookup name).map RoleDef.permisos_base).getD []
  | none => []

/-- `acceso_completo` (full access) of a role name under the default policy table. -/
def role_full_access (r : Option String) : Bool :=
  match r with
  | some name => ((default_roles.lookup name).map RoleDef.acceso_completo).getD false
  | none => false

/-- `config.get_role_hierarchy`. -/
def get_role_hierarchy : List String :=
  ["admin", "profesor", "estudiante", "invitado"]

/-- `config.can_manage_role`: `list.index` raising `ValueError` on a
missing element is modelled by `List.findIdx?` returning `none`, and the
`except ValueError: return False` by the catch-all branch. -/
def can_manage_role (manager_role target_role : String) : Bool :=
  match get_role_hierarchy.findIdx? (· = manager_role),
        get_role_hierarchy.findIdx? (· = target_role) with
  | some i, some j => decide (i < j)
  | _, _ => false

/-- The default `dominios_permitidos` and `timeout_sesion` of
`create_default_config`. -/
def default_config : Config :=
  ⟨["@utem.cl", "@profesores.utem.cl", "@alumnos.utem.cl"], 3600⟩

/-- Iterated failed attempts: `record_login_attempt(email, success=False)`
at each time of the list, in order. -/
def fail_seq (m : AttemptsMap) (k : Option String) (ts : List Int) : AttemptsMap :=
  ts.foldl (fun m t => record_login_attempt m k false t) m

/-! ### Concrete fixtures used by witnesses and counterexamples -/

/-- The empty `login_attempts` dictionary. -/
def no_attempts : AttemptsMap := fun _ => none

/-- A cleared session (the initial `init_session_state`). -/
def empty_session : Session := ⟨false, none, none, none, none⟩

/-- The default administrator profile of `create_default_users`. -/
def admin_profile : UserProfile :=
  ⟨some "Administrador Sistema", some "admin", some "todas", some "sistemas",
   ["lectura", "escritura", "exportacion", "admin"], some true⟩

/-- A session authenticated as the administrator. -/
def admin_session : Session :=
  ⟨true, some "admin@utem.cl", some admin_profile, some 0, some 0⟩

/-- The default `decano` profile of `create_default_users`. -/
def ana_profile : UserProfile :=
  ⟨some "Ana Torres", some "decano", some "quimica", some "quimica",
   ["lectura", "exportacion", "reportes", "gestion"], some true⟩

/-- A session authenticated as the `decano` user. -/
def ana_session : Session :=
  ⟨true, some "ana.torres@utem.cl", some ana_profile, some 0, some 0⟩

/-- A `profesor` profile whose own `permisos` list is empty, although the
role `profesor` has `"lectura"` among its `permisos_base`. -/
def cex_profile : UserProfile :=
  ⟨some "Juan Pérez", some "profesor", some "ingenieria", some "informatica", [], some true⟩

/-- A session authenticated as `cex_profile`. -/
def cex_session : Session :=
  ⟨true, some "juan.perez@utem.cl", some cex_profile, some 0, some 0⟩

/-- A `profesor` in departamento `informatica` (for the scope filter). -/
def inf_profile : UserProfile :=
  ⟨some "Juan Pérez", some "profesor", some "ingenieria", some "informatica",
   ["lectura"], some true⟩

/-- A session authenticated as `inf_profile`. -/
def inf_session : Session :=
  ⟨true, some "juan.perez@utem.cl", some inf_profile, some 0, some 0⟩

/-- A small user database. -/
def w_db : List (String × UserProfile) :=
  [("admin@utem.cl", admin_profile), ("ana.torres@utem.cl", ana_profile)]

/-- A system state with the default config, `w_db` and no recorded attempts. -/
def w_sys : Sys := ⟨default_config, w_db, no_attempts⟩

/-- An attempts dictionary holding one zero-count record. -/
def w_m0 : AttemptsMap :=
  updAttempts no_attempts (some "ana.torres@utem.cl") ⟨0, 0, none⟩

/-- A dataset whose `departamento` values are informatica, quimica, informatica. -/
def w_df : DataFrame :=
  ⟨["departamento"],
   [[("departamento", "informatica"), ("curso", "A")],
    [("departamento", "quimica"), ("curso", "B")],
    [("departamento", "informatica"), ("curso", "C")]]⟩

/-- An authenticated session whose `last_activity` is 3601 seconds before
time 10000. -/
def expired_session : Session :=
  ⟨true, some "ana.torres@utem.cl", some ana_profile, some 0, some 6399⟩

/-- An authenticated session whose `last_activity` is 3599 seconds before
time 10000. -/
def fresh_session : Session :=
  ⟨true, some "ana.torres@utem.cl", some ana_profile, some 0, some 6401⟩

/-! ### Theorems -/

/-- Claim C2: for every authenticated session whose role is `admin`,
`is_authorized` returns `true` for every permission string. -/
theorem is_authorized_admin_all (sess : Session) (ud : UserProfile) (p : String)
    (hauth : sess.authenticated = true) (hud : sess.user_data = some ud)
    (hrol : ud.rol = some "admin") :
    is_authorized sess p = true := by
  simp [is_authorized, get_user_role, hauth, hud, hrol]

/-- Witness for C2: the admin session is authorized for a permission
string that appears in no role's `permisos_base`. -/
theorem is_authorized_admin_all_witness :
    is_authorized admin_session "permiso_inexistente" = true ∧
    default_roles.all (fun r => !(r.2.permisos_base.contains "permiso_inexistente")) = true :=
  ⟨is_authorized_admin_all admin_session admin_profile "permiso_inexistente" rfl rfl rfl,
   by decide⟩

/-- Claim C1, counterexample: a session with role `profesor` (not full
access) and empty profile permission list is denied `"lectura"`, although
`"lectura"` belongs to the union of the role's `permisos_base` and the
profile's permission overrides — so `is_authorized` is not the membership
test in that union. -/
theorem is_authorized_union_counterexample :
    ¬ (is_authorized cex_session "lectura" = true ↔
        ("lectura" ∈ role_base_permissions (get_user_role cex_session) ∨
         "lectura" ∈ cex_profile.permisos)) := by
  decide

/-- Claim C1, amended: for every authenticated session whose role does
not grant full access, `is_authorized` returns `true` iff the permission
is present in the profile's own permission list (`permisos`); the role's
`permisos_base` are not consulted. -/
theorem is_authorized_profile_permissions_only (sess : Session) (ud : UserProfile) (p : String)
    (hauth : sess.authenticated = true) (hud : sess.user_data = some ud)
    (hfa : role_full_access ud.rol = false) :
    is_authorized sess p = true ↔ p ∈ ud.permisos := by
  have hrol : ud.rol ≠ some "admin" := by
    intro h
    rw [h] at hfa
    simp [role_full_access, default_roles] at hfa
  simp [is_authorized, get_user_role, get_user_permissions, hauth, hud, hrol]

/-- Witness for C1 (amended): the `decano` session is authorized exactly
for its profile permissions. -/
theorem is_authorized_profile_permissions_only_witness :
    is_authorized ana_session "exportacion" = true ∧
    is_authorized ana_session "escritura" = false :=
  ⟨(is_authorized_profile_permissions_only ana_session ana_profile "exportacion"
      rfl rfl (by decide)).mpr (by decide),
   by
    have h := is_authorized_profile_permissions_only ana_session ana_profile "escritura"
      rfl rfl (by decide)
    rw [Bool.eq_false_iff]
    intro hx
    exact absurd (h.mp hx) (by decide)⟩

/-- Claim C4, counterexample: on an empty user directory, deleting
`admin@utem.cl` returns the not-found message, not the protected-admin
message. -/
theorem delete_admin_counterexample :
    ¬ ((delete_user [] "admin@utem.cl").2.2 =
        "No se puede eliminar al administrador principal") := by
  decide

/-- Claim C4, amended: deleting `admin@utem.cl` always fails and leaves
the directory unchanged; it returns the protected-admin error when the
identity is present, and the not-found error when it is absent. -/
theorem delete_admin_protected (db : List (String × UserProfile)) :
    (delete_user db "admin@utem.cl").1 = db ∧
    (delete_user db "admin@utem.cl").2.1 = false ∧
    ((db.lookup "admin@utem.cl").isSome = true →
      (delete_user db "admin@utem.cl").2.2 =
        "No se puede eliminar al administrador principal") ∧
    ((db.lookup "admin@utem.cl").isSome = false →
      (delete_user db "admin@utem.cl").2.2 = "Usuario no existe") := by
  unfold delete_user
  cases h : db.lookup "admin@utem.cl" <;> simp [h]

/-- Witness for C4 (amended): concrete directories with and without the
bootstrap administrator. -/
theorem delete_admin_protected_witness :
    (delete_user w_db "admin@utem.cl").2.2 =
      "No se puede eliminar al administrador principal" ∧
    (delete_user [] "admin@utem.cl").2.2 = "Usuario no existe" ∧
    (delete_user w_db "admin@utem.cl").1 = w_db :=
  ⟨(delete_admin_protected w_db).2.2.1 (by decide),
   (delete_admin_protected []).2.2.2 (by decide),
   (delete_admin_protected w_db).1⟩

/-- Claim C10: `can_manage_role` is true exactly when both roles occur in
the hierarchy `['admin', 'profesor', 'estudiante', 'invitado']` with the
manager strictly earlier; it is irreflexive, and false when either role
is missing from the hierarchy. -/
theorem can_manage_role_spec (m t : String) :
    (can_manage_role m t = true ↔
      ∃ i j, get_role_hierarchy.findIdx? (· = m) = some i ∧
             get_role_hierarchy.findIdx? (· = t) = some j ∧ i < j) ∧
    can_manage_role m m = false ∧
    ((m ∉ get_role_hierarchy ∨ t ∉ get_role_hierarchy) → can_manage_role m t = false) := by
  have hidx : ∀ s : String, s ∉ get_role_hierarchy →
      get_role_hierarchy.findIdx? (· = s) = none := by
    intro s hs
    rw [List.findIdx?_eq_none_iff]
    intro x hx
    simp only [decide_eq_false_iff_not]
    intro hxs
    exact hs (hxs ▸ hx)
  refine ⟨?_, ?_, ?_⟩
  · unfold can_manage_role
    cases h1 : get_role_hierarchy.findIdx? (· = m) <;>
      cases h2 : get_role_hierarchy.findIdx? (· = t) <;>
      simp [h1, h2]
  · unfold can_manage_role
    cases h1 : get_role_hierarchy.findIdx? (· = m) <;> simp [h1]
  · rintro (hm | ht)
    · unfold can_manage_role
      rw [hidx m hm]
    · unfold can_manage_role
      rw [hidx t ht]
      cases get_role_hierarchy.findIdx? (· = m) <;> rfl

/-- Witness for C10: concrete role pairs. -/
theorem can_manage_role_spec_witness :
    can_manage_role "admin" "profesor" = true ∧
    can_manage_role "estudiante" "estudiante" = false ∧
    can_manage_role "root" "invitado" = false :=
  ⟨(can_manage_role_spec "admin" "profesor").1.mpr ⟨0, 1, by decide, by decide, by decide⟩,
   (can_manage_role_spec "estudiante" "estudiante").2.1,
   (can_manage_role_spec "root" "invitado").2.2 (by decide)⟩

/-- Claim C6: an identity ending with no allowed domain suffix fails
`validate_domain`, and `login` on it (when not rate-limited) rejects with
the domain-not-authorized message, leaving the user directory and the
session unchanged. -/
theorem domain_rejected (sys : Sys) (sess : Session) (email : String) (now : Int)
    (hdom : ∀ d ∈ sys.config.dominios_permitidos, str_ends_with email d = false)
    (hrl : (check_rate_limit sys.login_attempts (some email) now).2.1 = true) :
    validate_domain sys.config email = false ∧
    (login sys sess (some email) now).ok = false ∧
    (login sys sess (some email) now).msg =
      "Dominio de email no autorizado. Use su cuenta @utem.cl" ∧
    (login sys sess (some email) now).sys.users_db = sys.users_db ∧
    (login sys sess (some email) now).sess = sess := by
  have hv : validate_domain sys.config email = false := by
    simp only [validate_domain, List.any_eq_false]
    intro d hd
    simp [hdom d hd]
  have hlogin : login sys sess (some email) now =
      ⟨⟨sys.config, sys.users_db,
        record_login_attempt (check_rate_limit sys.login_attempts (some email) now).1
          (some email) false now⟩,
       sess, false, "Dominio de email no autorizado. Use su cuenta @utem.cl"⟩ := by
    rcases hc : check_rate_limit sys.login_attempts (some email) now with ⟨m1, allowed, msg⟩
    rw [hc] at hrl
    simp only at hrl
    subst hrl
    simp [login, loginBody, hc, hv]
  exact ⟨hv, by rw [hlogin], by rw [hlogin], by rw [hlogin], by rw [hlogin]⟩

/-- Witness for C6: a gmail address against the default configuration. -/
theorem domain_rejected_witness :
    validate_domain w_sys.config "intruso@gmail.com" = false ∧
    (login w_sys empty_session (some "intruso@gmail.com") 0).ok = false ∧
    (login w_sys empty_session (some "intruso@gmail.com") 0).msg =
      "Dominio de email no autorizado. Use su cuenta @utem.cl" ∧
    (login w_sys empty_session (some "intruso@gmail.com") 0).sys.users_db = w_sys.users_db :=
  have h := domain_rejected w_sys empty_session "intruso@gmail.com" 0 (by decide) (by decide)
  ⟨h.1, h.2.1, h.2.2.1, h.2.2.2.1⟩

/-- Claim C7: for an authenticated session, `check_session_timeout`
terminates the session (clearing the fields as `logout` does) and returns
`false` when the elapsed idle time exceeds the configured timeout, and
otherwise refreshes `last_activity` to the current time and returns
`true`. -/
theorem session_timeout_spec (cfg : Config) (sess : Session) (now la : Int)
    (hauth : sess.authenticated = true) (hla : sess.last_activity = some la) :
    (now - la > cfg.timeout_sesion →
      check_session_timeout cfg sess now = (logout sess, false)) ∧
    (now - la ≤ cfg.timeout_sesion →
      check_session_timeout cfg sess now = ({ sess with last_activity := some now }, true)) := by
  constructor
  · intro h
    simp [check_session_timeout, hauth, hla, h, logout]
  · intro h
    simp [check_session_timeout, hauth, hla, not_lt.mpr h]

/-- Witness for C7: with the default 3600-second timeout, elapsed 3601
seconds expires the session and elapsed 3599 seconds refreshes it. -/
theorem session_timeout_spec_witness :
    check_session_timeout default_config expired_session 10000 = (logout expired_session, false) ∧
    check_session_timeout default_config fresh_session 10000 =
      ({ fresh_session with last_activity := some 10000 }, true) :=
  ⟨(session_timeout_spec default_config expired_session 10000 6399 rfl rfl).1 (by decide),
   (session_timeout_spec default_config fresh_session 10000 6401 rfl rfl).2 (by decide)⟩

/-- Claim C8: for an authenticated session without full access whose
faculty is not the all-units sentinel and whose department is a nonempty
unit, `filter_data_by_role` keeps exactly the rows whose scope column
matches the department case-insensitively, in their original order. -/
theorem scope_filter_spec (sess : Session) (ud : UserProfile) (data : DataFrame)
    (col dept : String)
    (hauth : sess.authenticated = true) (hud : sess.user_data = some ud)
    (hfa : role_full_access ud.rol = false)
    (hfac : ud.facultad ≠ some "todas")
    (hdept : ud.departamento = some dept) (hne : dept ≠ "")
    (hcol : col ∈ data.columns) :
    filter_data_by_role sess data col =
      some ⟨data.columns,
            data.rows.filter (fun r => str_lower (cellOf r col) = str_lower dept)⟩ := by
  have hrol : get_user_role sess ≠ some "admin" := by
    simp only [get_user_role, hauth, hud]
    intro h
    rw [h] at hfa
    simp [role_full_access, default_roles] at hfa
  simp [filter_data_by_role, hauth, hud, hrol, hfac, hdept, hne, hcol]

/-- Witness for C8: department `informatica` against rows with
departments informatica, quimica, informatica keeps the first and third
rows in order. -/
theorem scope_filter_spec_witness :
    filter_data_by_role inf_session w_df "departamento" =
      some ⟨["departamento"],
            [[("departamento", "informatica"), ("curso", "A")],
             [("departamento", "informatica"), ("curso", "C")]]⟩ := by
  have h := scope_filter_spec inf_session inf_profile w_df "departamento" "informatica"
    rfl rfl (by decide) (by decide) rfl (by decide) (by decide)
  rw [h]
  decide

/-- Claim C5: `login` always returns a `(success, message)` result; a
normally-completing body is returned as is, and an internal fault
(modelled by the `Except.error` outcome of `loginBody`, e.g. the
`None.endswith` fault on a missing email) is converted into a rejection
carrying the generic authentication-process-error message. -/
theorem login_total_catches (sys : Sys) (sess : Session) (email : Option String) (now : Int) :
    (∀ s2 ss2, loginBody sys sess email now = .error (s2, ss2) →
      login sys sess email now = ⟨s2, ss2, false, authProcessError⟩) ∧
    (∀ r, loginBody sys sess email now = .ok r → login sys sess email now = r) ∧
    ((check_rate_limit sys.login_attempts none now).2.1 = true → email = none →
      (login sys sess email now).ok = false ∧
      (login sys sess email now).msg = authProcessError) := by
  refine ⟨?_, ?_, ?_⟩
  · intro s2 ss2 h
    simp [login, h]
  · intro r h
    simp [login, h]
  · intro hrl he
    subst he
    rcases hc : check_rate_limit sys.login_attempts none now with ⟨m1, allowed, msg⟩
    rw [hc] at hrl
    simp only at hrl
    subst hrl
    simp [login, loginBody, hc, authProcessError]

/-- Witness for C5: a `login` call with a missing email faults inside
`validate_domain` and is converted to the generic rejection. -/
theorem login_total_catches_witness :
    (login w_sys empty_session none 0).ok = false ∧
    (login w_sys empty_session none 0).msg = authProcessError :=
  (login_total_catches w_sys empty_session none 0).2.2 (by decide) rfl

/-- Claim C9: recording a successful attempt resets the identity's
record to zero failures with no lockout, from any prior record state; and
a successful `login` leaves the identity's attempt record reset the same
way. -/
theorem record_success_resets (m : AttemptsMap) (k : Option String) (now : Int)
    (sys : Sys) (sess : Session) (e : String) (t : Int) :
    (record_login_attempt m k true now) k = some ⟨0, now, none⟩ ∧
    ((login sys sess (some e) t).ok = true →
      (login sys sess (some e) t).sys.login_attempts (some e) = some ⟨0, t, none⟩) := by
  constructor
  · simp [record_login_attempt, updAttempts]
  · intro hok
    rcases hc : check_rate_limit sys.login_attempts (some e) t with ⟨m1, allowed, msg⟩
    simp only [login, loginBody, hc] at hok ⊢
    cases allowed with
    | false => simp at hok
    | true =>
      cases hv : validate_domain sys.config e with
      | false => simp [hv] at hok
      | true =>
        cases hl : sys.users_db.lookup e with
        | none => simp [hv, hl] at hok
        | some ud =>
          cases ha : ud.activo.getD false with
          | false => simp [hv, hl, ha] at hok
          | true => simp [hv, hl, ha, record_login_attempt, updAttempts]

/-- Witness for C9: a record with four failures and a lockout is reset by
a successful attempt, and a concrete successful login resets the record. -/
theorem record_success_resets_witness :
    (record_login_attempt (updAttempts no_attempts (some "a@utem.cl") ⟨4, 7, some 100⟩)
      (some "a@utem.cl") true 9) (some "a@utem.cl") = some ⟨0, 9, none⟩ ∧
    (login w_sys empty_session (some "ana.torres@utem.cl") 3).sys.login_attempts
      (some "ana.torres@utem.cl") = some ⟨0, 3, none⟩ :=
  ⟨(record_success_resets (updAttempts no_attempts (some "a@utem.cl") ⟨4, 7, some 100⟩)
      (some "a@utem.cl") 9 w_sys empty_session "x" 0).1,
   (record_success_resets no_attempts none 0 w_sys empty_session
      "ana.torres@utem.cl" 3).2 (by decide)⟩

/-- Evolution of an attempt record under one recorded failure. -/
theorem record_fail_step (m : AttemptsMap) (k : Option String) (a : Nat) (tp tn : Int)
    (lu : Option Int) (h : m k = some ⟨a, tp, lu⟩) :
    (record_login_attempt m k false tn) k =
      some ⟨a + 1, tn,
            if a + 1 ≥ max_attempts then some (tn + lockout_duration) else lu⟩ := by
  simp [record_login_attempt, h, updAttempts]

/-- Claim C3: from a zero-count record, five consecutive recorded
failures set a lockout of `lockout_duration` seconds after the fifth
failure; any login before that instant is rejected with the lockout
message regardless of the system's directory or configuration, and an
otherwise-valid login at or after that instant succeeds with the failure
count reset to zero. -/
theorem rate_limit_lockout_spec (email : String) (m0 : AttemptsMap) (t0 t1 t2 t3 t4 t5 : Int)
    (cfg : Config) (db : List (String × UserProfile)) (sess : Session) (ud : UserProfile)
    (h0 : m0 (some email) = some ⟨0, t0, none⟩)
    (hdom : validate_domain cfg email = true)
    (hdb : db.lookup email = some ud)
    (hact : ud.activo = some true) :
    (fail_seq m0 (some email) [t1, t2, t3, t4, t5]) (some email) =
      some ⟨5, t5, some (t5 + lockout_duration)⟩ ∧
    (∀ (t : Int) (cfg2 : Config) (db2 : List (String × UserProfile)) (sess2 : Session),
      t < t5 + lockout_duration →
      (login ⟨cfg2, db2, fail_seq m0 (some email) [t1, t2, t3, t4, t5]⟩
          sess2 (some email) t).ok = false ∧
      (login ⟨cfg2, db2, fail_seq m0 (some email) [t1, t2, t3, t4, t5]⟩
          sess2 (some email) t).msg =
        "Cuenta bloqueada. Intente nuevamente en " ++
          toString (t5 + lockout_duration - t) ++ " segundos." ∧
      (login ⟨cfg2, db2, fail_seq m0 (some email) [t1, t2, t3, t4, t5]⟩
          sess2 (some email) t).sess = sess2) ∧
    (∀ t : Int, t5 + lockout_duration ≤ t →
      (login ⟨cfg, db, fail_seq m0 (some email) [t1, t2, t3, t4, t5]⟩
          sess (some email) t).ok = true ∧
      (login ⟨cfg, db, fail_seq m0 (some email) [t1, t2, t3, t4, t5]⟩
          sess (some email) t).sys.login_attempts (some email) = some ⟨0, t, none⟩) := by
  have s1 := record_fail_step m0 (some email) 0 t0 t1 none h0
  simp only [max_attempts] at s1
  norm_num at s1
  have s2 := record_fail_step _ (some email) 1 t1 t2 none s1
  simp only [max_attempts] at s2
  norm_num at s2
  have s3 := record_fail_step _ (some email) 2 t2 t3 none s2
  simp only [max_attempts] at s3
  norm_num at s3
  have s4 := record_fail_step _ (some email) 3 t3 t4 none s3
  simp only [max_attempts] at s4
  norm_num at s4
  have s5 := record_fail_step _ (some email) 4 t4 t5 none s4
  simp only [max_attempts] at s5
  norm_num at s5
  have hm5 : (fail_seq m0 (some email) [t1, t2, t3, t4, t5]) (some email) =
      some ⟨5, t5, some (t5 + lockout_duration)⟩ := by
    simp only [fail_seq, List.foldl_cons, List.foldl_nil]
    exact s5
  refine ⟨hm5, ?_, ?_⟩
  · intro t cfg2 db2 sess2 ht
    have hc : check_rate_limit (fail_seq m0 (some email) [t1, t2, t3, t4, t5]) (some email) t =
        (fail_seq m0 (some email) [t1, t2, t3, t4, t5], false,
         "Cuenta bloqueada. Intente nuevamente en " ++
           toString (t5 + lockout_duration - t) ++ " segundos.") := by
      simp [check_rate_limit, hm5, ht]
    refine ⟨?_, ?_, ?_⟩ <;> simp [login, loginBody, hc]
  · intro t ht
    have hc : check_rate_limit (fail_seq m0 (some email) [t1, t2, t3, t4, t5]) (some email) t =
        (updAttempts (fail_seq m0 (some email) [t1, t2, t3, t4, t5]) (some email) ⟨0, t, none⟩,
         true, "OK") := by
      simp only [check_rate_limit, hm5]
      rw [if_neg (not_lt.mpr ht)]
    constructor <;>
      simp [login, loginBody, hc, hdom, hdb, hact, record_login_attempt, updAttempts]

/-- Witness for C3: failures at times 1..5 lock the `decano` account
until time 305; a login at time 10 is rejected and a login at time 700
succeeds. -/
theorem rate_limit_lockout_spec_witness :
    (fail_seq w_m0 (some "ana.torres@utem.cl") [1, 2, 3, 4, 5]) (some "ana.torres@utem.cl") =
      some ⟨5, 5, some 305⟩ ∧
    (login ⟨default_config, w_db, fail_seq w_m0 (some "ana.torres@utem.cl") [1, 2, 3, 4, 5]⟩
        empty_session (some "ana.torres@utem.cl") 10).ok = false ∧
    (login ⟨default_config, w_db, fail_seq w_m0 (some "ana.torres@utem.cl") [1, 2, 3, 4, 5]⟩
        empty_session (some "ana.torres@utem.cl") 700).ok = true := by
  have h := rate_limit_lockout_spec "ana.torres@utem.cl" w_m0 0 1 2 3 4 5
    default_config w_db empty_session ana_profile (by decide) (by decide) (by decide) rfl
  exact ⟨by simpa [lockout_duration] using h.1,
         (h.2.1 10 default_config w_db empty_session (by decide)).1,
         (h.2.2 700 (by decide)).1⟩

end CanvasAuth
